import Mathlib

/-!
Verification of the IMQS leveled logging package (`log.go`) against its
natural-language specification.

The Go code is shallowly embedded: strings are lists of characters
(the code only manipulates ASCII bytes, where byte-level and
character-level operations agree), the `io.Writer` destination resolved
at construction is an inductive `Writer` value, the outcome of calling
the underlying sink's `Write` is passed in explicitly as a `WriteResult`
(the sink is an external collaborator), and each side-effecting method
returns a record of its observable effects (bytes handed to the
destination, line captured by the testing harness, diagnostic printed to
standard output, updated logger state).  The `panic("Unknown log level")`
in `levelToName` is modelled by `Option`: `none` is the panic.
-/

namespace IMQSLog

/-- Strings, modelled as lists of characters.  All string operations in
the Go source act on single ASCII bytes (`'\n'`, the first byte of a
level name, the `stdout` and `stderr` sentinels), for which byte-level
slicing and character-level slicing coincide. -/
abbrev Str := List Char

/-- Go: `type Level int` with `Trace Level = iota; Debug; Info; Warn; Error`.
The Go type is a machine integer, so values outside the five declared
constants are representable; we model levels as unbounded `Int`, which is
faithful for the value ranges the program ever compares. -/
def Trace : Int := 0

/-- Go constant `Debug` (iota value 1). -/
def Debug : Int := 1

/-- Go constant `Info` (iota value 2). -/
def Info : Int := 2

/-- Go constant `Warn` (iota value 3). -/
def Warn : Int := 3

/-- Go constant `Error` (iota value 4). -/
def Error : Int := 4

/-- Go: `const Stdout = "stdout"`, the reserved standard-output sentinel. -/
def Stdout : Str := "stdout".toList

/-- Go: `const Stderr = "stderr"`, the reserved standard-error sentinel. -/
def Stderr : Str := "stderr".toList

/-- Go `levelToName`: maps the five declared levels to their display
names; every other `Level` value hits `panic("Unknown log level")`,
modelled here as `none`. -/
def levelToName (level : Int) : Option Str :=
  if level = Trace then some "Trace".toList
  else if level = Debug then some "Debug".toList
  else if level = Info then some "Info".toList
  else if level = Warn then some "Warning".toList
  else if level = Error then some "Error".toList
  else none

/-- The concrete dynamic type of the `io.Writer` stored in `Logger.log`,
as resolved by `New`: `os.Stdout`, `os.Stderr`, a `*lumberjack.Logger`
rotating file sink (with its `MaxSize` and `MaxBackups` parameters), or
the fan-out writer produced by `io.MultiWriter`. -/
inductive Writer where
  | stdoutW : Writer
  | stderrW : Writer
  | file (filename : Str) (maxSize : Nat) (maxBackups : Nat) : Writer
  | multi (fst snd : Writer) : Writer
deriving DecidableEq

/-- Go's dynamic type check `l.log.(io.WriteCloser)`: `*os.File`
(standard output / standard error) and `*lumberjack.Logger` both have a
`Close` method and therefore satisfy `io.WriteCloser`; the value
returned by `io.MultiWriter` has no `Close` method. -/
def Writer.isWriteCloser : Writer → Bool
  | Writer.stdoutW => true
  | Writer.stderrW => true
  | Writer.file _ _ _ => true
  | Writer.multi _ _ => false

/-- Go's dynamic type check `l.log.(*os.File)`: true exactly for the
standard output and standard error stream handles. -/
def Writer.isOSFile : Writer → Bool
  | Writer.stdoutW => true
  | Writer.stderrW => true
  | Writer.file _ _ _ => false
  | Writer.multi _ _ => false

/-- The `Logger` struct.  `testingMode` models `testing != nil` (the
`testing.T` capture handle is external; only its presence matters to the
control flow).  `Level` is the threshold field, `log` the resolved
destination writer, `shownError` the sticky one-time diagnostic flag,
`inDocker` the construction-time isolated-environment bit. -/
structure Logger where
  Level : Int
  testingMode : Bool
  filename : Str
  log : Writer
  shownError : Bool
  inDocker : Bool
deriving DecidableEq

/-- Result returned by the underlying sink's `Write` call: the byte
count and the error (`none` models a nil Go error, `some e` a non-nil
error whose message is `e`).  The sink is an external collaborator, so
its response is an input to the model. -/
structure WriteResult where
  n : Nat
  err : Option Str
deriving DecidableEq

/-- The diagnostic line printed by `Logger.Write` on the first sink
failure: `fmt.Printf("Unable to write to log file %v: %v. This error
will not be shown again.\n", l.filename, err)`. -/
def errorDiag (filename : Str) (e : Str) : Str :=
  "Unable to write to log file ".toList ++ filename ++ ": ".toList ++ e
    ++ ". This error will not be shown again.\n".toList

/-- Observable outcome of one `Logger.Write` call: the pair returned to
the caller, the updated logger, and the diagnostic printed to standard
output (`none` when nothing is printed). -/
structure WriteOutcome where
  n : Nat
  err : Option Str
  logger : Logger
  printed : Option Str
deriving DecidableEq

/-- Go `Logger.Write`: forwards to the underlying sink (whose response
is `res`), and if the sink returned a non-nil error while `shownError`
is still false, prints the one-time diagnostic and sets the flag.  The
sink's count and error are returned to the caller unchanged. -/
def Logger.Write (l : Logger) (res : WriteResult) : WriteOutcome :=
  match res.err with
  | none => { n := res.n, err := res.err, logger := l, printed := none }
  | some e =>
    if l.shownError then
      { n := res.n, err := res.err, logger := l, printed := none }
    else
      { n := res.n, err := res.err,
        logger := { l with shownError := true },
        printed := some (errorDiag l.filename e) }

/-- The `suffix` computed by `Logger.Log`: `"\n"` when the message is
empty or its last byte is not `'\n'`, empty otherwise. -/
def logSuffix (msg : Str) : Str :=
  if msg.length = 0 ∨ msg.getLast? ≠ some '\n' then "\n".toList else []

/-- The fixed part of a production log line up to the message:
`"<timestamp> [<tag>] "`, from the format string `"%v [%v] %v%v"`. -/
def linePrefix (now tag : Str) : Str :=
  now ++ " [".toList ++ tag ++ "] ".toList

/-- The full production line `fmt.Sprintf("%v [%v] %v%v", now, tag,
msg, suffix)` assembled by `Logger.Log`. -/
def formatLine (now tag msg : Str) : Str :=
  linePrefix now tag ++ (msg ++ logSuffix msg)

/-- Observable outcome of one `Logger.Log` (or `Logger.Logf`) call:
the byte sequence handed to the destination writer (`none` when the
message was filtered or captured), the line captured by the testing
harness, the updated logger, and any one-time diagnostic printed. -/
structure LogOutcome where
  written : Option Str
  captured : Option Str
  logger : Logger
  printed : Option Str
deriving DecidableEq

/-- Go `Logger.Log`: filters against the threshold, computes the
newline suffix, and either hands `"[<tag>] <msg>"` to the testing
capture or formats the timestamped line and passes it to
`Logger.Write`.  `now` is the formatted `time.Now()` string and `res`
the underlying sink's response to the write.  The overall `none` models
the `panic` inside `levelToName` for a level outside the enumeration. -/
def Logger.Log (l : Logger) (now : Str) (level : Int) (msg : Str)
    (res : WriteResult) : Option LogOutcome :=
  if l.Level ≤ level then
    match levelToName level with
    | none => none
    | some name =>
      if l.testingMode then
        some { written := none,
               captured := some ("[".toList ++ name.take 1 ++ "] ".toList ++ msg),
               logger := l, printed := none }
      else
        let w := Logger.Write l res
        some { written := some (formatLine now (name.take 1) msg),
               captured := none, logger := w.logger, printed := w.printed }
  else
    some { written := none, captured := none, logger := l, printed := none }

/-- Go `Logger.Logf`: checks the threshold and delegates to
`Logger.Log` with the formatted message (`fmt.Sprintf` application is
modelled by passing the already-formatted `msg`). -/
def Logger.Logf (l : Logger) (now : Str) (level : Int) (msg : Str)
    (res : WriteResult) : Option LogOutcome :=
  if l.Level ≤ level then Logger.Log l now level msg res
  else some { written := none, captured := none, logger := l, printed := none }

/-- Go `New`: models the package-global `var Log *Logger` as an explicit
`globalLog` argument and returns the constructed (or cached) logger
together with the updated global.  Mirrors the source: an existing
global short-circuits; otherwise the destination is resolved (sentinels
to the console streams, anything else to a rotating file sink with
`MaxSize 30` and `MaxBackups 3`), and when the process is in docker
or `logToStdout` is set — and the specifier is not the `Stdout`
sentinel — the writer becomes `io.MultiWriter(os.Stdout, l.log)`. -/
def New (globalLog : Option Logger) (filename : Str)
    (logToStdout inDocker : Bool) : Logger × Option Logger :=
  match globalLog with
  | some l => (l, some l)
  | none =>
    let base : Writer :=
      if filename = Stdout then Writer.stdoutW
      else if filename = Stderr then Writer.stderrW
      else Writer.file filename 30 3
    let w : Writer :=
      if (inDocker = true ∨ logToStdout = true) ∧ filename ≠ Stdout then
        Writer.multi Writer.stdoutW base
      else base
    let l : Logger :=
      { Level := Info, testingMode := false, filename := filename,
        log := w, shownError := false, inDocker := inDocker }
    (l, some l)

/-- Effect of `Logger.Close`: either the `Close` method of the stored
writer is invoked, or nothing happens. -/
inductive CloseEffect where
  | closed (w : Writer) : CloseEffect
  | noop : CloseEffect
deriving DecidableEq

/-- Go `Logger.Close`: if the destination's dynamic type satisfies
`io.WriteCloser`, call its `Close`; otherwise, if it is an `*os.File`
(the branch commented "Close connection to stdout/stderr"), close that;
otherwise do nothing. -/
def Logger.Close (l : Logger) : CloseEffect :=
  if Writer.isWriteCloser l.log then CloseEffect.closed l.log
  else if Writer.isOSFile l.log then CloseEffect.closed l.log
  else CloseEffect.noop

/-- The apostrophe character used by `fmt.Errorf("Invalid log level
'%v'", lev)` to quote the rejected input. -/
def quoteChar : Char := Char.ofNat 39

/-- The error message produced by `ParseLevel` for unrecognized input. -/
def invalidLevelMsg (lev : Str) : Str :=
  "Invalid log level ".toList ++ (quoteChar :: lev) ++ [quoteChar]

/-- Go `ParseLevel`: examines only `lev[0:1]`, comparing it against the
ten one-character strings `T t D d I i W w E e`; anything else —
including the empty string — yields `Info` together with a non-nil
"invalid log level" error (`some message` models the non-nil error). -/
def ParseLevel (lev : Str) : Int × Option Str :=
  if lev.length ≠ 0 then
    let char0 := lev.take 1
    if char0 = ['T'] ∨ char0 = ['t'] then (Trace, none)
    else if char0 = ['D'] ∨ char0 = ['d'] then (Debug, none)
    else if char0 = ['I'] ∨ char0 = ['i'] then (Info, none)
    else if char0 = ['W'] ∨ char0 = ['w'] then (Warn, none)
    else if char0 = ['E'] ∨ char0 = ['e'] then (Error, none)
    else (Info, some (invalidLevelMsg lev))
  else (Info, some (invalidLevelMsg lev))

/-- The `Forwarder` struct: configuration only (the `Target` logger is
passed alongside, since the Go field is a pointer to external state). -/
structure Forwarder where
  StripPrefixLen : Nat
  Level : Int
deriving DecidableEq

/-- Observable outcome of one `Forwarder.Write` call: the pair returned
to the caller, the `(level, message)` invocation made on the target's
`Log` method (`none` when no call is made), and the target call's own
outcome. -/
structure ForwardOutcome where
  n : Nat
  err : Option Str
  targetCall : Option (Int × Str)
  targetOutcome : Option LogOutcome
deriving DecidableEq

/-- Go `Forwarder.Write`: when the input is strictly longer than
`StripPrefixLen`, invoke `Target.Log(f.Level, string(p[f.StripPrefixLen:]))`;
in every case return `(len(p), nil)`. -/
def Forwarder.Write (f : Forwarder) (target : Logger) (now : Str)
    (p : Str) (res : WriteResult) : ForwardOutcome :=
  if f.StripPrefixLen < p.length then
    { n := p.length, err := none,
      targetCall := some (f.Level, p.drop f.StripPrefixLen),
      targetOutcome := Logger.Log target now f.Level (p.drop f.StripPrefixLen) res }
  else
    { n := p.length, err := none, targetCall := none, targetOutcome := none }

/-! ### Helper lemmas -/

/-- `getLast?` looks only at a nonempty right summand of an append. -/
theorem getLastQ_append_right {α : Type} (l1 l2 : List α) (h : l2 ≠ []) :
    (l1 ++ l2).getLast? = l2.getLast? := by
  rw [List.getLast?_append]
  cases h2 : l2.getLast? with
  | none => exact absurd (List.getLast?_eq_none_iff.mp h2) h
  | some a => rfl

/-- The message together with its computed suffix is never empty. -/
theorem msgSuffix_ne_nil (msg : Str) : msg ++ logSuffix msg ≠ [] := by
  unfold logSuffix
  split
  · simp
  · next h =>
    push_neg at h
    simpa using fun he => h.1 (by simp [he])

/-- The message together with its computed suffix always ends in a
newline: either a newline was appended, or the message already ended in
one. -/
theorem getLastQ_msgSuffix (msg : Str) :
    (msg ++ logSuffix msg).getLast? = some '\n' := by
  unfold logSuffix
  split
  · exact List.getLast?_concat msg
  · next h =>
    push_neg at h
    rw [List.append_nil]
    exact h.2

/-- Every assembled production line ends in a newline. -/
theorem formatLine_getLast (now tag msg : Str) :
    (formatLine now tag msg).getLast? = some '\n' := by
  unfold formatLine
  rw [getLastQ_append_right _ _ (msgSuffix_ne_nil msg)]
  exact getLastQ_msgSuffix msg

/-- The fixed line prefix ends in the space after the closing bracket. -/
theorem linePrefix_getLast (now tag : Str) :
    (linePrefix now tag).getLast? = some ' ' := by
  unfold linePrefix
  rw [getLastQ_append_right _ _ (by simp)]
  rfl

/-- When the message does not already end in a newline, the assembled
line ends in exactly one newline: the character before the final
newline is not a newline. -/
theorem formatLine_exactlyOne (now tag msg : Str)
    (h : msg.getLast? ≠ some '\n') :
    (formatLine now tag msg).dropLast.getLast? ≠ some '\n' := by
  have hcond : msg.length = 0 ∨ msg.getLast? ≠ some '\n' := Or.inr h
  unfold formatLine logSuffix
  rw [if_pos hcond]
  have hassoc : linePrefix now tag ++ (msg ++ "\n".toList) =
      (linePrefix now tag ++ msg) ++ ['\n'] := by
    rw [List.append_assoc]; rfl
  rw [hassoc, List.dropLast_concat]
  cases msg with
  | nil =>
    rw [List.append_nil, linePrefix_getLast]
    simp
  | cons a t =>
    rw [getLastQ_append_right _ _ (List.cons_ne_nil a t)]
    exact h

/-- When the message already ends in a newline, nothing is appended:
the assembled line is the prefix followed by the message verbatim. -/
theorem formatLine_of_terminated (now tag msg : Str)
    (h : msg.getLast? = some '\n') :
    formatLine now tag msg = linePrefix now tag ++ msg := by
  have hne : msg.length ≠ 0 := by
    intro he
    rw [List.length_eq_zero] at he
    rw [he] at h
    simp at h
  unfold formatLine logSuffix
  rw [if_neg (by push_neg; exact ⟨hne, h⟩), List.append_nil]

/-- Unfolding of `Logger.Log` on the admitted production path. -/
theorem Log_production (l : Logger) (now : Str) (level : Int) (msg : Str)
    (res : WriteResult) (name : Str) (htest : l.testingMode = false)
    (hlev : l.Level ≤ level) (hname : levelToName level = some name) :
    Logger.Log l now level msg res =
      some { written := some (formatLine now (name.take 1) msg),
             captured := none, logger := (Logger.Write l res).logger,
             printed := (Logger.Write l res).printed } := by
  unfold Logger.Log
  rw [if_pos hlev, hname, htest]
  rfl

/-- For the five declared levels, `levelToName` succeeds and the
one-character display tag is one of `T D I W E`. -/
theorem levelToName_tag (level : Int) (h0 : 0 ≤ level) (h4 : level ≤ Error) :
    (levelToName level).map (fun n => n.take 1) ∈
      ([some ['T'], some ['D'], some ['I'], some ['W'], some ['E']] :
        List (Option Str)) := by
  have h4i : level ≤ 4 := h4
  interval_cases level <;> decide

/-- Outside the five declared levels, `levelToName` panics (`none`). -/
theorem levelToName_oob (level : Int) (h : level < 0 ∨ Error < level) :
    levelToName level = none := by
  have h5 : ¬(level = 0) ∧ ¬(level = 1) ∧ ¬(level = 2) ∧ ¬(level = 3) ∧
      ¬(level = 4) := by
    have : level < 0 ∨ (4 : Int) < level := h
    omega
  unfold levelToName Trace Debug Info Warn Error
  rw [if_neg h5.1, if_neg h5.2.1, if_neg h5.2.2.1, if_neg h5.2.2.2.1,
    if_neg h5.2.2.2.2]

/-! ### Concrete fixtures used by counterexamples and witnesses -/

/-- A sink response modelling a successful write with a nil error. -/
def okRes : WriteResult := { n := 40, err := none }

/-- A sink response modelling a failed write with a non-nil error. -/
def failRes : WriteResult := { n := 0, err := some "disk full".toList }

/-- A concrete formatted timestamp. -/
def ts0 : Str := "2024-01-02T03:04:05.000000Z".toList

/-- A production logger freshly constructed against a file path. -/
def fileLogger : Logger := (New none "app.log".toList false false).1

/-- A message that already ends in two line terminators. -/
def c1Msg : Str := ['a', '\n', '\n']

/-! ### Claims -/

/-- Claim C1, counterexample: in production mode, logging the message
`"a\n\n"` (which already ends in two terminators) at level `Info`
emits a line whose final two characters are both `'\n'` — the emitted
line does not end in exactly one line terminator, contradicting the
claim that a message ending in two or more `'\n'` still yields a line
ending in exactly one `'\n'`. -/
theorem c1_counterexample :
    Logger.Log fileLogger ts0 Info c1Msg okRes =
      some { written := some (formatLine ts0 ['I'] c1Msg), captured := none,
             logger := fileLogger, printed := none } ∧
    (formatLine ts0 ['I'] c1Msg).getLast? = some '\n' ∧
    (formatLine ts0 ['I'] c1Msg).dropLast.getLast? = some '\n' := by
  decide

/-- Claim C1, amended: for every admitted level in production mode,
`Log` emits exactly one formatted line that always ends in a line
terminator; when the message did not already end in a terminator the
line ends in exactly one, and when it did, nothing is appended (so the
line keeps exactly the terminators the message already had). -/
theorem c1_terminator (l : Logger) (now : Str) (level : Int) (msg : Str)
    (res : WriteResult) (name : Str)
    (htest : l.testingMode = false) (hlev : l.Level ≤ level)
    (hname : levelToName level = some name) :
    Logger.Log l now level msg res =
      some { written := some (formatLine now (name.take 1) msg),
             captured := none, logger := (Logger.Write l res).logger,
             printed := (Logger.Write l res).printed } ∧
    (formatLine now (name.take 1) msg).getLast? = some '\n' ∧
    (msg.getLast? ≠ some '\n' →
      (formatLine now (name.take 1) msg).dropLast.getLast? ≠ some '\n') ∧
    (msg.getLast? = some '\n' →
      formatLine now (name.take 1) msg = linePrefix now (name.take 1) ++ msg) :=
  ⟨Log_production l now level msg res name htest hlev hname,
   formatLine_getLast now (name.take 1) msg,
   fun h => formatLine_exactlyOne now (name.take 1) msg h,
   fun h => formatLine_of_terminated now (name.take 1) msg h⟩

/-- Witness for the amended claim C1 at concrete inputs. -/
theorem c1_terminator_witness :
    Logger.Log fileLogger ts0 Info ['a', 'b'] okRes =
      some { written := some (formatLine ts0 ("Info".toList.take 1) ['a', 'b']),
             captured := none, logger := (Logger.Write fileLogger okRes).logger,
             printed := (Logger.Write fileLogger okRes).printed } ∧
    (formatLine ts0 ("Info".toList.take 1) ['a', 'b']).getLast? = some '\n' ∧
    (['a', 'b'].getLast? ≠ some '\n' →
      (formatLine ts0 ("Info".toList.take 1) ['a', 'b']).dropLast.getLast? ≠
        some '\n') ∧
    (['a', 'b'].getLast? = some '\n' →
      formatLine ts0 ("Info".toList.take 1) ['a', 'b'] =
        linePrefix ts0 ("Info".toList.take 1) ++ ['a', 'b']) :=
  c1_terminator fileLogger ts0 Info ['a', 'b'] okRes "Info".toList rfl
    (by decide) (by decide)

/-- Claim C2, counterexample: constructing a logger with the `Stderr`
sentinel and `logToStdout = true` resolves to a fan-out writer over
standard output and standard error — not to standard error alone.  The
fan-out guard in `New` only excludes the `Stdout` sentinel. -/
theorem c2_counterexample :
    (New none Stderr true false).1.log =
      Writer.multi Writer.stdoutW Writer.stderrW ∧
    (New none Stderr true false).1.log ≠ Writer.stderrW := by
  decide

/-- Claim C2, amended: the `Stderr` sentinel resolves to standard error
alone only when `logToStdout` is false and the docker check failed;
when either flag is set the writer fans out to both standard output and
standard error. -/
theorem c2_resolution (logToStdout inDocker : Bool) :
    (New none Stderr logToStdout inDocker).1.log =
      if inDocker = true ∨ logToStdout = true then
        Writer.multi Writer.stdoutW Writer.stderrW
      else Writer.stderrW := by
  cases logToStdout <;> cases inDocker <;> decide

/-- Claim C7, counterexample: for a logger whose destination is the
`Stdout` console sentinel, `Close` is not a no-op — `os.Stdout`
satisfies `io.WriteCloser`, so its `Close` method is invoked, closing
the process's standard output stream. -/
theorem c7_counterexample :
    Logger.Close (New none Stdout false false).1 =
      CloseEffect.closed Writer.stdoutW ∧
    Logger.Close (New none Stdout false false).1 ≠ CloseEffect.noop := by
  decide

/-- Claim C7, amended: `Close` invokes the `Close` method of any
destination whose dynamic type exposes one — the rotating file sink and
also the standard output / standard error stream handles (both are
closeable); it is a no-op only for the fan-out writer, which has no
`Close` method. -/
theorem c7_close (l : Logger) :
    (l.log = Writer.stdoutW →
      Logger.Close l = CloseEffect.closed Writer.stdoutW) ∧
    (l.log = Writer.stderrW →
      Logger.Close l = CloseEffect.closed Writer.stderrW) ∧
    (∀ fn a b, l.log = Writer.file fn a b →
      Logger.Close l = CloseEffect.closed (Writer.file fn a b)) ∧
    (∀ w1 w2, l.log = Writer.multi w1 w2 →
      Logger.Close l = CloseEffect.noop) := by
  refine ⟨fun h => ?_, fun h => ?_, fun fn a b h => ?_, fun w1 w2 h => ?_⟩ <;>
    simp [Logger.Close, h, Writer.isWriteCloser, Writer.isOSFile]

/-- Witness for the amended claim C7 at concrete destinations. -/
theorem c7_close_witness :
    Logger.Close fileLogger =
      CloseEffect.closed (Writer.file "app.log".toList 30 3) ∧
    Logger.Close (New none "app.log".toList true false).1 =
      CloseEffect.noop := by
  refine ⟨(c7_close fileLogger).2.2.1 "app.log".toList 30 3 (by decide), ?_⟩
  exact (c7_close (New none "app.log".toList true false).1).2.2.2
    Writer.stdoutW (Writer.file "app.log".toList 30 3) (by decide)

/-- `Logger.Write` always returns the sink's count and error verbatim. -/
theorem Write_passthrough (l : Logger) (res : WriteResult) :
    (Logger.Write l res).n = res.n ∧ (Logger.Write l res).err = res.err := by
  cases hres : res.err with
  | none => simp [Logger.Write, hres]
  | some e =>
    by_cases h : l.shownError <;> simp [Logger.Write, hres, h]

/-- Claim C3: on the first failing write of a logger (sticky flag still
false) exactly one diagnostic naming the path and the error is printed
and `shownError` becomes true; the immediately following failing write
prints nothing, and more generally once the flag is set no failing
write ever prints again (and the flag never resets). -/
theorem c3_suppression (l : Logger) (r1 r2 : WriteResult) (e1 e2 : Str)
    (h0 : l.shownError = false) (h1 : r1.err = some e1)
    (h2 : r2.err = some e2) :
    (Logger.Write l r1).printed = some (errorDiag l.filename e1) ∧
    (Logger.Write l r1).logger.shownError = true ∧
    (Logger.Write (Logger.Write l r1).logger r2).printed = none ∧
    (Logger.Write (Logger.Write l r1).logger r2).err = some e2 ∧
    (∀ (l2 : Logger) (r : WriteResult), l2.shownError = true →
      (Logger.Write l2 r).printed = none ∧
      (Logger.Write l2 r).logger.shownError = true) := by
  have hgen : ∀ (l2 : Logger) (r : WriteResult), l2.shownError = true →
      (Logger.Write l2 r).printed = none ∧
      (Logger.Write l2 r).logger.shownError = true := by
    intro l2 r h
    cases hr : r.err with
    | none => simp [Logger.Write, hr, h]
    | some e => simp [Logger.Write, hr, h]
  have hfst : (Logger.Write l r1).printed = some (errorDiag l.filename e1) ∧
      (Logger.Write l r1).logger.shownError = true := by
    simp [Logger.Write, h1, h0]
  have herr : (Logger.Write (Logger.Write l r1).logger r2).err = some e2 :=
    (Write_passthrough (Logger.Write l r1).logger r2).2.trans h2
  exact ⟨hfst.1, hfst.2, (hgen _ r2 hfst.2).1, herr, hgen⟩

/-- Witness for claim C3: two consecutive failing writes on a fresh
file logger print exactly one diagnostic. -/
theorem c3_suppression_witness :
    (Logger.Write fileLogger failRes).printed =
      some (errorDiag fileLogger.filename "disk full".toList) ∧
    (Logger.Write fileLogger failRes).logger.shownError = true ∧
    (Logger.Write (Logger.Write fileLogger failRes).logger failRes).printed =
      none := by
  have h := c3_suppression fileLogger failRes failRes "disk full".toList
    "disk full".toList (by decide) (by decide) (by decide)
  exact ⟨h.1, h.2.1, h.2.2.1⟩

/-- Claim C4: a message below the threshold is discarded before any
side effect — nothing is written to any sink, nothing is captured,
nothing is printed, and the logger state is returned unchanged — for
both `Log` and `Logf`; an admitted message in production mode results
in exactly one formatted line handed to the destination. -/
theorem c4_threshold (l : Logger) (now : Str) (level : Int) (msg : Str)
    (res : WriteResult) (name : Str) :
    (level < l.Level →
      Logger.Log l now level msg res =
        some { written := none, captured := none, logger := l,
               printed := none } ∧
      Logger.Logf l now level msg res =
        some { written := none, captured := none, logger := l,
               printed := none }) ∧
    (l.testingMode = false → l.Level ≤ level →
      levelToName level = some name →
      Logger.Log l now level msg res =
        some { written := some (formatLine now (name.take 1) msg),
               captured := none, logger := (Logger.Write l res).logger,
               printed := (Logger.Write l res).printed }) := by
  constructor
  · intro h
    have hn : ¬ l.Level ≤ level := not_le.mpr h
    constructor
    · unfold Logger.Log
      rw [if_neg hn]
    · unfold Logger.Logf
      rw [if_neg hn]
  · intro htest hlev hname
    exact Log_production l now level msg res name htest hlev hname

/-- Witness for claim C4: a `Trace` message is dropped by the default
`Info` threshold, and an `Error` message is emitted. -/
theorem c4_threshold_witness :
    (Logger.Log fileLogger ts0 Trace ['a'] okRes =
      some { written := none, captured := none, logger := fileLogger,
             printed := none } ∧
     Logger.Logf fileLogger ts0 Trace ['a'] okRes =
      some { written := none, captured := none, logger := fileLogger,
             printed := none }) ∧
    Logger.Log fileLogger ts0 Error ['a'] okRes =
      some { written := some (formatLine ts0 ("Error".toList.take 1) ['a']),
             captured := none, logger := (Logger.Write fileLogger okRes).logger,
             printed := (Logger.Write fileLogger okRes).printed } := by
  refine ⟨(c4_threshold fileLogger ts0 Trace ['a'] okRes []).1 (by decide), ?_⟩
  exact (c4_threshold fileLogger ts0 Error ['a'] okRes "Error".toList).2
    (by decide) (by decide) (by decide)

/-- Claim C5: `Forwarder.Write` always returns the full original length
with a nil error; it makes no call on the target logger when the input
is no longer than `StripPrefixLen`, and otherwise invokes the target's
`Log` at the forwarder's fixed level with exactly the bytes after the
first `StripPrefixLen`. -/
theorem c5_forward (f : Forwarder) (target : Logger) (now p : Str)
    (res : WriteResult) :
    (Forwarder.Write f target now p res).n = p.length ∧
    (Forwarder.Write f target now p res).err = none ∧
    (p.length ≤ f.StripPrefixLen →
      (Forwarder.Write f target now p res).targetCall = none) ∧
    (f.StripPrefixLen < p.length →
      (Forwarder.Write f target now p res).targetCall =
        some (f.Level, p.drop f.StripPrefixLen) ∧
      (Forwarder.Write f target now p res).targetOutcome =
        Logger.Log target now f.Level (p.drop f.StripPrefixLen) res) := by
  unfold Forwarder.Write
  by_cases h : f.StripPrefixLen < p.length
  · rw [if_pos h]
    exact ⟨rfl, rfl, fun hle => absurd h (not_lt.mpr hle),
      fun _ => ⟨rfl, rfl⟩⟩
  · rw [if_neg h]
    exact ⟨rfl, rfl, fun _ => rfl, fun hlt => absurd hlt h⟩

/-- Witness for claim C5: with `StripPrefixLen = 2`, a two-character
input is consumed without any target call, and a three-character input
forwards its final character. -/
theorem c5_forward_witness :
    (Forwarder.Write { StripPrefixLen := 2, Level := Warn } fileLogger ts0
      ['x', 'y'] okRes).targetCall = none ∧
    (Forwarder.Write { StripPrefixLen := 2, Level := Warn } fileLogger ts0
      ['x', 'y', 'z'] okRes).targetCall = some (Warn, ['z']) ∧
    (Forwarder.Write { StripPrefixLen := 2, Level := Warn } fileLogger ts0
      ['x', 'y'] okRes).n = 2 ∧
    (Forwarder.Write { StripPrefixLen := 2, Level := Warn } fileLogger ts0
      ['x', 'y'] okRes).err = none := by
  have h2 := c5_forward { StripPrefixLen := 2, Level := Warn } fileLogger ts0
    ['x', 'y'] okRes
  have h3 := c5_forward { StripPrefixLen := 2, Level := Warn } fileLogger ts0
    ['x', 'y', 'z'] okRes
  exact ⟨h2.2.2.1 (by decide), ((h3.2.2.2 (by decide)).1.trans (by decide)),
    h2.1, h2.2.1⟩

/-- Claim C6: `ParseLevel` inspects only the first character,
case-insensitively: `t/d/i/w/e` map to the five levels with a nil
error, any other first character — and the empty string — yields `Info`
with a non-nil invalid-level error; in particular `"Warn"` and `"w"`
parse to `Warn`, and `""` and `"xyz"` fail to `Info`. -/
theorem c6_parse :
    (∀ (c : Char) (rest : Str),
      ((c = 'T' ∨ c = 't') → ParseLevel (c :: rest) = (Trace, none)) ∧
      ((c = 'D' ∨ c = 'd') → ParseLevel (c :: rest) = (Debug, none)) ∧
      ((c = 'I' ∨ c = 'i') → ParseLevel (c :: rest) = (Info, none)) ∧
      ((c = 'W' ∨ c = 'w') → ParseLevel (c :: rest) = (Warn, none)) ∧
      ((c = 'E' ∨ c = 'e') → ParseLevel (c :: rest) = (Error, none)) ∧
      (c ∉ (['T', 't', 'D', 'd', 'I', 'i', 'W', 'w', 'E', 'e'] : List Char) →
        ParseLevel (c :: rest) = (Info, some (invalidLevelMsg (c :: rest))))) ∧
    ParseLevel [] = (Info, some (invalidLevelMsg [])) ∧
    ParseLevel "Warn".toList = (Warn, none) ∧
    ParseLevel ['w'] = (Warn, none) ∧
    ParseLevel "xyz".toList = (Info, some (invalidLevelMsg "xyz".toList)) := by
  refine ⟨fun c rest => ?_, by decide, by decide, by decide, by decide⟩
  have hlen : (c :: rest).length ≠ 0 := by simp
  have htake : (c :: rest).take 1 = [c] := rfl
  unfold ParseLevel
  rw [if_pos hlen]
  simp only [htake, List.cons.injEq, and_true]
  refine ⟨fun h => by rw [if_pos h], fun h => ?_, fun h => ?_, fun h => ?_,
    fun h => ?_, fun h => ?_⟩
  · have hT : ¬(c = 'T' ∨ c = 't') := by rcases h with rfl | rfl <;> decide
    rw [if_neg hT, if_pos h]
  · have hT : ¬(c = 'T' ∨ c = 't') := by rcases h with rfl | rfl <;> decide
    have hD : ¬(c = 'D' ∨ c = 'd') := by rcases h with rfl | rfl <;> decide
    rw [if_neg hT, if_neg hD, if_pos h]
  · have hT : ¬(c = 'T' ∨ c = 't') := by rcases h with rfl | rfl <;> decide
    have hD : ¬(c = 'D' ∨ c = 'd') := by rcases h with rfl | rfl <;> decide
    have hI : ¬(c = 'I' ∨ c = 'i') := by rcases h with rfl | rfl <;> decide
    rw [if_neg hT, if_neg hD, if_neg hI, if_pos h]
  · have hT : ¬(c = 'T' ∨ c = 't') := by rcases h with rfl | rfl <;> decide
    have hD : ¬(c = 'D' ∨ c = 'd') := by rcases h with rfl | rfl <;> decide
    have hI : ¬(c = 'I' ∨ c = 'i') := by rcases h with rfl | rfl <;> decide
    have hW : ¬(c = 'W' ∨ c = 'w') := by rcases h with rfl | rfl <;> decide
    rw [if_neg hT, if_neg hD, if_neg hI, if_neg hW, if_pos h]
  · simp only [List.mem_cons, List.not_mem_nil, or_false, not_or] at h
    obtain ⟨nT, nt, nD, nd, nI, ni, nW, nw, nE, ne2⟩ := h
    rw [if_neg (fun hc => hc.elim nT nt), if_neg (fun hc => hc.elim nD nd),
      if_neg (fun hc => hc.elim nI ni), if_neg (fun hc => hc.elim nW nw),
      if_neg (fun hc => hc.elim nE ne2)]

/-- Witness for claim C6: the first-character rules applied to concrete
inputs with nonempty tails. -/
theorem c6_parse_witness :
    ParseLevel ('d' :: "ebug".toList) = (Debug, none) ∧
    ParseLevel ('q' :: "rst".toList) =
      (Info, some (invalidLevelMsg ('q' :: "rst".toList))) := by
  exact ⟨(c6_parse.1 'd' "ebug".toList).2.1 (Or.inr rfl),
    (c6_parse.1 'q' "rst".toList).2.2.2.2.2 (by decide)⟩

/-- Claim C8: every production line has the form
`<timestamp> [<X>] <body>` with the body ending in a newline, where the
tag `<X>` is one of the single characters `T D I W E` selected by the
level's rank — in particular `Warn`'s tag is `'W'`, the first character
of its full name `"Warning"` — and a level value outside the five
declared levels makes the tag/name lookup panic (modelled by `none`)
rather than return a recoverable result. -/
theorem c8_line_form (l : Logger) (now : Str) (level : Int) (msg : Str)
    (res : WriteResult) (name : Str) :
    (0 ≤ level → level ≤ Error →
      (levelToName level).map (fun n => n.take 1) ∈
        ([some ['T'], some ['D'], some ['I'], some ['W'], some ['E']] :
          List (Option Str))) ∧
    (levelToName Warn = some "Warning".toList ∧
      (levelToName Warn).map (fun n => n.take 1) = some ['W']) ∧
    ((level < 0 ∨ Error < level) → levelToName level = none) ∧
    ((level < 0 ∨ Error < level) → l.testingMode = false →
      l.Level ≤ level → Logger.Log l now level msg res = none) ∧
    (levelToName level = some name → l.testingMode = false →
      l.Level ≤ level →
      Logger.Log l now level msg res =
        some { written := some (linePrefix now (name.take 1) ++
                 (msg ++ logSuffix msg)),
               captured := none, logger := (Logger.Write l res).logger,
               printed := (Logger.Write l res).printed } ∧
      (msg ++ logSuffix msg).getLast? = some '\n') := by
  refine ⟨fun h0 h4 => levelToName_tag level h0 h4, by decide,
    fun h => levelToName_oob level h, fun h htest hlev => ?_,
    fun hname htest hlev => ?_⟩
  · unfold Logger.Log
    rw [if_pos hlev, levelToName_oob level h]
  · exact ⟨Log_production l now level msg res name htest hlev hname,
      getLastQ_msgSuffix msg⟩

/-- Witness for claim C8 at concrete inputs: `Warn` is admitted with
tag `'W'`, and the out-of-range level `7` panics. -/
theorem c8_line_form_witness :
    (levelToName Warn).map (fun n => n.take 1) ∈
      ([some ['T'], some ['D'], some ['I'], some ['W'], some ['E']] :
        List (Option Str)) ∧
    levelToName 7 = none ∧
    Logger.Log fileLogger ts0 7 ['a'] okRes = none ∧
    Logger.Log fileLogger ts0 Warn ['a'] okRes =
      some { written := some (linePrefix ts0 ("Warning".toList.take 1) ++
               (['a'] ++ logSuffix ['a'])),
             captured := none, logger := (Logger.Write fileLogger okRes).logger,
             printed := (Logger.Write fileLogger okRes).printed } := by
  have hw := c8_line_form fileLogger ts0 Warn ['a'] okRes "Warning".toList
  have h7 := c8_line_form fileLogger ts0 7 ['a'] okRes []
  exact ⟨hw.1 (by decide) (by decide), h7.2.2.1 (by decide),
    h7.2.2.2.1 (by decide) (by decide) (by decide),
    (hw.2.2.2.2 (by decide) (by decide) (by decide)).1⟩

/-- Claim C9: once the package-global logger has been set by a first
call to `New`, every subsequent call returns that same instance
unchanged and leaves the global untouched, regardless of the filename
and `logToStdout` arguments of the later call. -/
theorem c9_singleton (f1 f2 : Str) (b1 d1 b2 d2 : Bool) (l0 : Logger) :
    (New none f1 b1 d1).2 = some (New none f1 b1 d1).1 ∧
    New (some l0) f2 b2 d2 = (l0, some l0) :=
  ⟨rfl, rfl⟩

/-- Claim C10: `Logger.Write` returns the underlying sink's byte count
and error to its caller on every call — for any `shownError` state —
so the sticky flag suppresses only the printed diagnostic, never the
returned error value. -/
theorem c10_passthrough (l : Logger) (res : WriteResult) :
    (Logger.Write l res).n = res.n ∧ (Logger.Write l res).err = res.err :=
  Write_passthrough l res

end IMQSLog
